import Mathlib

/-!
Shallow embedding of the batch generation orchestrator of
`interior_designer.py` (class `InteriorDesigner`), together with the
driver scripts that call into it.  Machine-level details that the claims
do not touch (actual network transport, PNG decoding, the event loop)
are represented by their observable outcomes: a request either raises or
yields a `Response`, and an image is an opaque byte payload.
-/

namespace Decor

/-- Errors that the Python code can raise.  Each constructor corresponds to a
concrete Python exception class. -/
inductive PyError where
  | typeError (msg : String)
  | indexError (msg : String)
  | attributeError (msg : String)
  | valueError (msg : String)
  | zeroDivisionError
deriving DecidableEq, Repr

/-- A decoded image.  `PIL.Image` objects are opaque to the orchestrator:
only the raw payload they were decoded from matters to the claims, so an
image is its byte payload (decoding is modelled as total; no claim concerns
undecodable image bytes). -/
structure PILImage where
  data : List Nat
deriving DecidableEq, Repr

/-- `response.usage_metadata` as read by the code: `prompt_token_count`,
`candidates_token_count`, `total_token_count`. -/
structure UsageMetadata where
  prompt_token_count : Nat
  candidates_token_count : Nat
  total_token_count : Nat
deriving DecidableEq, Repr

/-- One content part of a response: an optional text field and an optional
inline binary payload (`part.inline_data.data`, inlined). -/
structure RespPart where
  text : Option String
  inline_data : Option (List Nat)
deriving DecidableEq, Repr

/-- `candidate.content`: holds an optional list of parts. -/
structure RespContent where
  parts : Option (List RespPart)
deriving DecidableEq, Repr

/-- One candidate of a response: an optional content. -/
structure Candidate where
  content : Option RespContent
deriving DecidableEq, Repr

/-- A remote response.  `candidates` is optional (the remote schema allows a
missing list), and `usage_metadata` is `none` exactly when the attribute is
absent, matching the `hasattr(response, 'usage_metadata')` guard in the
code. -/
structure Response where
  candidates : Option (List Candidate)
  usage_metadata : Option UsageMetadata
deriving DecidableEq, Repr

/-- The extraction loop body of `generate_design_variations` (lines 302-305):
scan the parts, return the first inline payload (the `break`). -/
def findInlineData : List RespPart → Option (List Nat)
  | [] => none
  | p :: rest =>
    match p.inline_data with
    | some d => some d
    | none => findInlineData rest

/-- `for part in response.candidates[0].content.parts: ...` with the Python
attribute/subscript semantics: `candidates` being `None` makes the
subscript raise `TypeError`, an empty list raises `IndexError`, a `None`
content raises `AttributeError` at `.parts`, and a `None` parts list raises
`TypeError` when iterated.  A well-formed response yields `some` image when
a part carries inline data and `none` otherwise. -/
def extractImage (response : Response) : Except PyError (Option PILImage) :=
  match response.candidates with
  | none => .error (.typeError "NoneType object is not subscriptable")
  | some [] => .error (.indexError "list index out of range")
  | some (c :: _) =>
    match c.content with
    | none => .error (.attributeError "NoneType object has no attribute parts")
    | some content =>
      match content.parts with
      | none => .error (.typeError "NoneType object is not iterable")
      | some parts => .ok ((findInlineData parts).map PILImage.mk)

/-- One element of the list returned by
`asyncio.gather(*tasks, return_exceptions=True)`: either a captured
exception, or the pair `(i, response)` returned by `generate_with_usage`. -/
inductive TaskResult where
  | exn (msg : String)
  | ok (i : Nat) (response : Response)
deriving DecidableEq, Repr

/-- `f"{n:02d}"`: decimal digits of `n`, left-padded with zeros to width 2. -/
def pad2 (n : Nat) : String :=
  if n < 10 then "0" ++ toString n else toString n

/-- `f"{output_dir}/design_variation_{i + 1:02d}.png"` (line 310). -/
def outputPath (output_dir : String) (i : Nat) : String :=
  output_dir ++ "/design_variation_" ++ pad2 (i + 1) ++ ".png"

/-- Pricing constants from lines 327-328: input $0.000075 per 1K tokens,
output $0.0003 per 1K tokens.  Exact rationals stand in for the Python
floats; the claims concern which token counts enter the formula, not
floating-point rounding. -/
def input_price_per_1k : ℚ := 75 / 1000000

def output_price_per_1k : ℚ := 3 / 10000

/-- The mutable loop state of `generate_design_variations` (lines 287-289):
`generated_images`, the running token totals, plus the list of files written
so far (the `image.save(output_path)` calls) and the indices whose image was
extracted, in processing order. -/
structure BatchState where
  generated_images : List PILImage
  saved : List String
  successIndices : List Nat
  total_input_tokens : Nat
  total_output_tokens : Nat
deriving DecidableEq, Repr

def initialState : BatchState :=
  { generated_images := [], saved := [], successIndices := []
    total_input_tokens := 0, total_output_tokens := 0 }

/-- One iteration of the results loop (lines 291-322).  An exception result
is only logged; otherwise the image is extracted (which can raise, see
`extractImage`); with an image in hand the image is appended and saved and
the usage totals grow by the reported counts when `usage_metadata` is
present; with no image the iteration only logs.  `log_usage_info` (line
298) is wrapped in its own try/except and only prints, so it has no effect
here. -/
def processResult (output_dir : String) (st : BatchState) :
    TaskResult → Except PyError BatchState
  | .exn _ => .ok st
  | .ok i response =>
    match extractImage response with
    | .error e => .error e
    | .ok none => .ok st
    | .ok (some image) =>
      let din := match response.usage_metadata with
        | some u => u.prompt_token_count
        | none => 0
      let dout := match response.usage_metadata with
        | some u => u.candidates_token_count
        | none => 0
      .ok { generated_images := st.generated_images ++ [image]
            saved := st.saved ++ [outputPath output_dir i]
            successIndices := st.successIndices ++ [i]
            total_input_tokens := st.total_input_tokens + din
            total_output_tokens := st.total_output_tokens + dout }

/-- The whole results loop.  A raise mid-loop keeps the state reached so far
(earlier file writes persist), mirroring the Python mutation; the second
component is the uncaught exception, if any. -/
def processResults (output_dir : String) :
    BatchState → List TaskResult → BatchState × Option PyError
  | st, [] => (st, none)
  | st, r :: rest =>
    match processResult output_dir st r with
    | .error e => (st, some e)
    | .ok st' => processResults output_dir st' rest

/-- The summary block of lines 325-338 packaged as a value: the returned
image list, the files written, the success indices, the accumulated totals,
and the computed costs.  When `total_tokens` is zero the block is skipped
and no cost is printed, represented by a zero `estimated_cost` (the cost
formulas evaluate to zero there anyway) and `cost_per_variation = none`. -/
structure BatchSummary where
  generated_images : List PILImage
  saved : List String
  successIndices : List Nat
  total_input_tokens : Nat
  total_output_tokens : Nat
  estimated_cost : ℚ
  cost_per_variation : Option ℚ
deriving DecidableEq, Repr

/-- `generate_design_variations` from the post-gather point on, as a function
of the gathered results list (lines 291-340).  Python `/` raises
`ZeroDivisionError` on a zero denominator, so the
`total_cost / len(generated_images)` of line 338 — executed only inside the
`total_tokens > 0` branch — is modelled by an explicit guard. -/
def generate_design_variations (output_dir : String) (results : List TaskResult) :
    Except PyError BatchSummary :=
  match processResults output_dir initialState results with
  | (_, some e) => .error e
  | (st, none) =>
    let total_tokens := st.total_input_tokens + st.total_output_tokens
    let input_cost : ℚ := (st.total_input_tokens : ℚ) / 1000 * input_price_per_1k
    let output_cost : ℚ := (st.total_output_tokens : ℚ) / 1000 * output_price_per_1k
    let total_cost := input_cost + output_cost
    if total_tokens > 0 ∧ st.generated_images.length = 0 then
      .error .zeroDivisionError
    else
      .ok { generated_images := st.generated_images
            saved := st.saved
            successIndices := st.successIndices
            total_input_tokens := st.total_input_tokens
            total_output_tokens := st.total_output_tokens
            estimated_cost := total_cost
            cost_per_variation :=
              if total_tokens > 0 then some (total_cost / st.generated_images.length) else none }

/-- Files written by the loop, including those written before an uncaught
raise. -/
def batchWrites (output_dir : String) (results : List TaskResult) : List String :=
  (processResults output_dir initialState results).1.saved

/-- A result the loop records as a failure without raising: a captured
exception, or a well-formed response from which no image part was
extracted. -/
def recordedFailure : TaskResult → Bool
  | .exn _ => true
  | .ok _ response =>
    match extractImage response with
    | .ok none => true
    | _ => false

/-- A result that contributes an image: a well-formed response with an
inline-data part. -/
def imageSuccess : TaskResult → Bool
  | .exn _ => false
  | .ok _ response =>
    match extractImage response with
    | .ok (some _) => true
    | _ => false

/-- A result whose processing does not raise. -/
def wellFormed : TaskResult → Bool
  | .exn _ => true
  | .ok _ response =>
    match extractImage response with
    | .ok _ => true
    | .error _ => false

/-- A well-formed response carrying one image part of payload `[0]` and
reporting the given token counts. -/
def respWithUsage (input output : Nat) : Response :=
  Response.mk
    (some [Candidate.mk (some (RespContent.mk (some [RespPart.mk none (some [0])])))])
    (some (UsageMetadata.mk input output (input + output)))

/-- A well-formed response with parts but no inline data (text only). -/
def respNoImage : Response :=
  Response.mk
    (some [Candidate.mk (some (RespContent.mk (some [RespPart.mk (some "no image") none])))])
    (some (UsageMetadata.mk 1000 10 1010))

/-- A malformed response: `candidates` is `None`. -/
def respMalformed : Response :=
  { candidates := none, usage_metadata := none }

/-! ### Scheduling model for `asyncio.gather`

Each task `generate_with_usage i` (lines 273-279) either raises or returns
the pair `(i, response)`.  The event loop completes the tasks in some
order; `gather` places each task's result back in the slot of its argument
position, so the list it returns is in submission order whatever the
completion order was. -/

/-- The outcome of task `i`, as a function of the per-index remote outcome:
a raised error is captured as `TaskResult.exn`, a response is returned
tagged with its index, exactly as `generate_with_usage` returns
`(i, response)`. -/
def taskOf (remote : Nat → Except String Response) (i : Nat) : TaskResult :=
  match remote i with
  | .error e => .exn e
  | .ok r => .ok i r

/-- The completed tasks in completion order `σ`: task `i` finishes carrying
its slot number `i` and its result. -/
def completedInOrder (σ : List Nat) (task : Nat → TaskResult) :
    List (Nat × TaskResult) :=
  σ.map (fun i => (i, task i))

/-- `gather`'s reassembly: slot `i` of the returned list receives the result
completed for index `i` (`none` if it never completed, impossible when the
completion order is a permutation of the indices). -/
def slotResults (n : Nat) (completed : List (Nat × TaskResult)) :
    List (Option TaskResult) :=
  (List.range n).map (fun i => (completed.find? (fun p => p.1 == i)).map Prod.snd)

/-- The batch under an explicit completion schedule `σ`: gather the `n` task
results completed in order `σ`, then run the results loop on the gathered
list. -/
def run_batch_sched (output_dir : String) (n : Nat) (σ : List Nat)
    (remote : Nat → Except String Response) : Except PyError BatchSummary :=
  generate_design_variations output_dir
    ((slotResults n (completedInOrder σ (taskOf remote))).filterMap id)

/-! ### Reference-image loading and request construction (lines 256-278) -/

/-- One content item of a request: the prompt text or an attached image. -/
inductive ContentItem where
  | text (s : String)
  | image (img : PILImage)
deriving DecidableEq, Repr

/-- The image-loading loops of lines 256-270.  The filesystem is external,
so a path is represented by its load outcome (`load_image` either returns a
decoded image or raises `ValueError`).  A failed load is skipped with a
`Warning: Could not load image` line on the side-channel; loaded images keep
their input order.  Returns (loaded images, warning lines). -/
def loadImages : List (Except PyError PILImage) → List PILImage × List String
  | [] => ([], [])
  | .ok img :: rest =>
    let (imgs, warns) := loadImages rest
    (img :: imgs, warns)
  | .error _ :: rest =>
    let (imgs, warns) := loadImages rest
    (imgs, "Warning: Could not load image" :: warns)

/-- The `contents` list built by `generate_with_usage` (lines 276-277):
`[prompt] + current_room_images[:3] + inspiration_images[:2]`. -/
def request_contents (prompt : String) (current_room_images : List PILImage)
    (inspiration_images : List PILImage) : List ContentItem :=
  [ContentItem.text prompt]
    ++ (current_room_images.take 3).map ContentItem.image
    ++ (inspiration_images.take 2).map ContentItem.image

/-- The attached images of a request's contents, in order. -/
def imageItems : List ContentItem → List PILImage
  | [] => []
  | .text _ :: rest => imageItems rest
  | .image img :: rest => img :: imageItems rest

/-- The front half of `generate_design_variations` (lines 253-281): load
both reference-image lists, then build each of the `n` requests' contents.
Returns the per-request contents and the warning lines emitted.  The
truncation to the first 3 current-room and 2 inspiration images happens
silently inside `request_contents`; no code path emits a warning for it. -/
def batch_front (current_room_paths inspiration_paths : List (Except PyError PILImage))
    (prompts : Nat → String) (n : Nat) :
    List (List ContentItem) × List String :=
  let (current_room_images, w1) := loadImages current_room_paths
  let (inspiration_images, w2) := loadImages inspiration_paths
  ((List.range n).map
      (fun i => request_contents (prompts i) current_room_images inspiration_images),
    w1 ++ w2)

/-! ### Constructor and driver scripts -/

/-- Python truthiness of an `Optional[str]`: `None` and the empty string are
falsy. -/
def pyTruthy : Option String → Bool
  | none => false
  | some s => !s.isEmpty

/-- The orchestrator object: the resolved key and the model name set by
`__init__` (line 63). -/
structure Designer where
  api_key : String
  model : String
deriving DecidableEq, Repr

/-- `InteriorDesigner.__init__` (lines 55-63):
`self.api_key = api_key or os.getenv("GEMINI_API_KEY")`, then raise
`ValueError` if the result is falsy; only then is the client constructed.
`envKey` is the value of `GEMINI_API_KEY` in the process environment
(`none` when absent). -/
def InteriorDesigner_init (api_key : Option String) (envKey : Option String) :
    Except PyError Designer :=
  let key := if pyTruthy api_key then api_key else envKey
  match key with
  | some s =>
    if s.isEmpty then
      .error (.valueError "GEMINI_API_KEY environment variable is required")
    else
      .ok { api_key := s, model := "gemini-2.5-flash-image-preview" }
  | none => .error (.valueError "GEMINI_API_KEY environment variable is required")

/-- A whole run: construct the orchestrator, then (only on success) run the
batch.  The second component lists the files written; a failed construction
runs no batch code, so nothing is written. -/
def run_program (api_key envKey : Option String) (output_dir : String)
    (results : List TaskResult) : Except PyError BatchSummary × List String :=
  match InteriorDesigner_init api_key envKey with
  | .error e => (.error e, [])
  | .ok _ => (generate_design_variations output_dir results,
              batchWrites output_dir results)

/-- The methods defined on class `InteriorDesigner` (lines 52-369), by
name. -/
def InteriorDesigner_methods : List String :=
  ["__init__", "load_image", "encode_image", "create_variation_prompt",
   "generate_design_variation", "log_usage_info", "get_total_usage_summary",
   "generate_design_variations", "save_variations_grid"]

/-- Python attribute lookup of a method on an `InteriorDesigner` instance:
an undefined name raises `AttributeError` before any argument of the call
is evaluated. -/
def getattrMethod (name : String) : Except PyError Unit :=
  if InteriorDesigner_methods.contains name then .ok ()
  else .error (.attributeError name)

/-- The fields of the `RoomSpecs` dataclass without a default value
(lines 24-32); `room_type` has a default. -/
def RoomSpecs_required_fields : List String :=
  ["width", "length", "height", "window_count", "door_count"]

/-- Constructing a `RoomSpecs` with the given keyword arguments: the
generated dataclass `__init__` raises `TypeError` when a required field is
missing. -/
def RoomSpecs_init (kwargs : List String) : Except PyError Unit :=
  if RoomSpecs_required_fields.all (fun f => kwargs.contains f) then .ok ()
  else .error (.typeError "RoomSpecs.__init__ missing required arguments")

/-- Observable batch effects of a driver run; produced only after the
`generate_variations` call would have succeeded, so an earlier raise means
no request was dispatched and no file written. -/
inductive DriverEvent where
  | dispatched (n : Nat)
deriving DecidableEq, Repr

/-- `jaidha_room.py main` (lines 198-221): construct the designer, construct
`RoomSpecs(width=…, length=…, height=…, room_type=…)` — note the absent
`window_count` and `door_count` — then call
`designer.generate_variations(...)`. -/
def jaidha_room_main (envKey : Option String) : Except PyError (List DriverEvent) := do
  let _ ← InteriorDesigner_init none envKey
  let _ ← RoomSpecs_init ["width", "length", "height", "room_type"]
  let _ ← getattrMethod "generate_variations"
  .ok [DriverEvent.dispatched 1]

/-- `kitchen.py main` (lines 107-113): construct the designer then call
`designer.generate_variations(...)`. -/
def kitchen_main (envKey : Option String) : Except PyError (List DriverEvent) := do
  let _ ← InteriorDesigner_init none envKey
  let _ ← getattrMethod "generate_variations"
  .ok [DriverEvent.dispatched 1]

/-- `living_room.py main` (lines 188-194). -/
def living_room_main (envKey : Option String) : Except PyError (List DriverEvent) := do
  let _ ← InteriorDesigner_init none envKey
  let _ ← getattrMethod "generate_variations"
  .ok [DriverEvent.dispatched 1]

/-- `jaidha_custom.py main` (lines 145-152). -/
def jaidha_custom_main (envKey : Option String) : Except PyError (List DriverEvent) := do
  let _ ← InteriorDesigner_init none envKey
  let _ ← getattrMethod "generate_variations"
  .ok [DriverEvent.dispatched 1]

/-- `living_room_iteration.py main` (lines 187-193). -/
def living_room_iteration_main (envKey : Option String) :
    Except PyError (List DriverEvent) := do
  let _ ← InteriorDesigner_init none envKey
  let _ ← getattrMethod "generate_variations"
  .ok [DriverEvent.dispatched 1]

/-- Whether a driver run failed with an `AttributeError`. -/
def failsWithAttributeError : Except PyError (List DriverEvent) → Bool
  | .error (.attributeError _) => true
  | _ => false

/-- Whether the batch returned normally. -/
def exceptOk : Except PyError BatchSummary → Bool
  | .ok _ => true
  | .error _ => false

/-- The output portion of the estimated cost of a returned summary: the
estimated cost minus the input portion. -/
def outputPortion : Except PyError BatchSummary → Option ℚ
  | .ok s => some (s.estimated_cost - (s.total_input_tokens : ℚ) / 1000 * input_price_per_1k)
  | .error _ => none

/-- The success indices of a batch outcome (empty when the batch raised). -/
def successIndicesOf : Except PyError BatchSummary → List Nat
  | .ok s => s.successIndices
  | .error _ => []

/-- The index a result contributes an image under, if any. -/
def indexIfSuccess : TaskResult → Option Nat
  | .exn _ => none
  | .ok i response =>
    match extractImage response with
    | .ok (some _) => some i
    | _ => none

/-- The value of a digit string (most significant digit first). -/
def decodeDigits (cs : List Char) : Nat :=
  cs.foldl (fun acc c => acc * 10 + (c.toNat - '0'.toNat)) 0

/-! ## Loop lemmas -/

/-- Extraction only raises `TypeError`, `IndexError` or `AttributeError`. -/
theorem extractImage_no_zeroDiv (response : Response) :
    extractImage response ≠ Except.error PyError.zeroDivisionError := by
  obtain ⟨cands, usage⟩ := response
  cases cands with
  | none => simp [extractImage]
  | some l =>
    cases l with
    | nil => simp [extractImage]
    | cons c rest =>
      obtain ⟨content⟩ := c
      cases content with
      | none => simp [extractImage]
      | some ct =>
        obtain ⟨parts⟩ := ct
        cases parts with
        | none => simp [extractImage]
        | some ps => simp [extractImage]

/-- A recorded failure leaves the loop state untouched. -/
theorem processResult_of_recordedFailure (output_dir : String) (st : BatchState)
    (r : TaskResult) (h : recordedFailure r = true) :
    processResult output_dir st r = .ok st := by
  cases r with
  | exn m => rfl
  | ok i response =>
    simp only [recordedFailure] at h
    simp only [processResult]
    cases hex : extractImage response with
    | error e => rw [hex] at h; simp at h
    | ok o =>
      cases o with
      | none => rfl
      | some img => rw [hex] at h; simp at h

/-- The only way one loop iteration raises is an extraction error. -/
theorem processResult_error_extract (output_dir : String) (st : BatchState) (r : TaskResult)
    (e : PyError) (h : processResult output_dir st r = .error e) :
    ∃ i response, r = TaskResult.ok i response ∧ extractImage response = .error e := by
  cases r with
  | exn m => simp [processResult] at h
  | ok i response =>
    refine ⟨i, response, rfl, ?_⟩
    simp only [processResult] at h
    cases hex : extractImage response with
    | error e' => rw [hex] at h; injection h with he; rw [he]
    | ok o =>
      cases o with
      | none => rw [hex] at h; simp at h
      | some img => rw [hex] at h; simp at h

/-- A loop over recorded failures only ends with the state it began with. -/
theorem processResults_all_failures (output_dir : String) (l : List TaskResult) :
    ∀ st, (∀ r ∈ l, recordedFailure r = true) →
      processResults output_dir st l = (st, none) := by
  induction l with
  | nil => intro st _; rfl
  | cons r rest ih =>
    intro st h
    have hr := h r (by simp)
    simp only [processResults]
    rw [processResult_of_recordedFailure output_dir st r hr]
    exact ih st (fun x hx => h x (by simp [hx]))

/-- The loop never raises `ZeroDivisionError`. -/
theorem processResults_no_zeroDiv (output_dir : String) (l : List TaskResult) :
    ∀ st, (processResults output_dir st l).2 ≠ some PyError.zeroDivisionError := by
  induction l with
  | nil => intro st h; simp [processResults] at h
  | cons r rest ih =>
    intro st h
    simp only [processResults] at h
    cases hp : processResult output_dir st r with
    | ok st' => rw [hp] at h; exact ih st' h
    | error e =>
      rw [hp] at h
      simp only at h
      obtain ⟨i, response, _, hex⟩ := processResult_error_extract output_dir st r e hp
      injection h with he
      rw [he] at hex
      exact extractImage_no_zeroDiv response hex

/-- One iteration preserves "positive token totals force a nonempty image
list". -/
theorem processResult_preserves_inv (output_dir : String) (st st' : BatchState)
    (r : TaskResult) (hp : processResult output_dir st r = .ok st')
    (h : 0 < st.total_input_tokens + st.total_output_tokens → st.generated_images ≠ []) :
    0 < st'.total_input_tokens + st'.total_output_tokens → st'.generated_images ≠ [] := by
  cases r with
  | exn m =>
    simp only [processResult] at hp
    injection hp with h'
    rw [← h']
    exact h
  | ok i response =>
    simp only [processResult] at hp
    cases hex : extractImage response with
    | error e => rw [hex] at hp; simp at hp
    | ok o =>
      cases o with
      | none => rw [hex] at hp; injection hp with h'; rw [← h']; exact h
      | some img =>
        rw [hex] at hp
        injection hp with h'
        rw [← h']
        intro _
        simp

/-- The whole loop preserves the invariant. -/
theorem processResults_preserves_inv (output_dir : String) (l : List TaskResult) :
    ∀ st, (0 < st.total_input_tokens + st.total_output_tokens → st.generated_images ≠ []) →
      (0 < (processResults output_dir st l).1.total_input_tokens +
            (processResults output_dir st l).1.total_output_tokens →
        (processResults output_dir st l).1.generated_images ≠ []) := by
  induction l with
  | nil => intro st h; simpa [processResults] using h
  | cons r rest ih =>
    intro st h
    simp only [processResults]
    cases hp : processResult output_dir st r with
    | error e => simpa using h
    | ok st' => exact ih st' (processResult_preserves_inv output_dir st st' r hp h)

/-- A loop that does not raise yields a batch that returns normally. -/
theorem generate_ok_of_no_raise (output_dir : String) (results : List TaskResult)
    (hnone : (processResults output_dir initialState results).2 = none) :
    exceptOk (generate_design_variations output_dir results) = true := by
  have hinv := processResults_preserves_inv output_dir results initialState
    (by intro hcontra; simp [initialState] at hcontra)
  unfold generate_design_variations
  cases hps : processResults output_dir initialState results with
  | mk st err =>
    rw [hps] at hnone hinv
    simp only at hnone
    subst hnone
    by_cases hc : 0 < st.total_input_tokens + st.total_output_tokens ∧
        st.generated_images.length = 0
    · exact absurd (List.length_eq_zero.mp hc.2) (hinv hc.1)
    · simp only [if_neg hc, exceptOk]

/-! ## Claim theorems -/

/-- A single-request batch with an image-bearing success reporting `input`
and `c` tokens: the output portion of the estimated cost is the literal
reported count priced at the output rate. -/
theorem single_success_outputPortion (input c : Nat) :
    outputPortion (generate_design_variations "output"
        [TaskResult.ok 0 (respWithUsage input c)])
      = some ((c : ℚ) / 1000 * output_price_per_1k) := by
  simp [generate_design_variations, processResults, processResult, extractImage,
    respWithUsage, findInlineData, initialState, outputPortion]

/-- C1, counterexample.  The claim says an image-bearing success is charged
a flat, constant output-token count.  Two single-request batches, both
image-bearing and both reporting 1000 input tokens, reporting 100 resp. 200
output tokens, get different output portions of `estimated_cost`
($0.00003 vs $0.00006): the output charge tracks the literal reported
`candidates_token_count`, so it is not any flat constant. -/
theorem C1_counterexample :
    outputPortion (generate_design_variations "output"
        [TaskResult.ok 0 (respWithUsage 1000 100)]) = some (3 / 100000)
    ∧ outputPortion (generate_design_variations "output"
        [TaskResult.ok 0 (respWithUsage 1000 200)]) = some (3 / 50000)
    ∧ outputPortion (generate_design_variations "output"
          [TaskResult.ok 0 (respWithUsage 1000 100)])
        ≠ outputPortion (generate_design_variations "output"
          [TaskResult.ok 0 (respWithUsage 1000 200)]) := by
  have h1 := single_success_outputPortion 1000 100
  have h2 := single_success_outputPortion 1000 200
  refine ⟨?_, ?_, ?_⟩
  · rw [h1]; norm_num [output_price_per_1k]
  · rw [h2]; norm_num [output_price_per_1k]
  · rw [h1, h2]; norm_num [output_price_per_1k]

/-- C1, amended: `estimated_cost` is computed from the accumulated totals at
$0.000075 per 1K input tokens and $0.0003 per 1K output tokens, where the
output total is the literal reported `candidates_token_count`; for a
single image-bearing success reporting `input` and `c` tokens the cost is
`input/1000 * 0.000075 + c/1000 * 0.0003`. -/
theorem C1_amended_literal_output_tokens (input c : Nat) :
    (generate_design_variations "output" [TaskResult.ok 0 (respWithUsage input c)]).map
        (fun s => (s.total_input_tokens, s.total_output_tokens, s.estimated_cost))
      = .ok (input, c,
          (input : ℚ) / 1000 * input_price_per_1k + (c : ℚ) / 1000 * output_price_per_1k) := by
  simp [generate_design_variations, processResults, processResult, extractImage,
    respWithUsage, findInlineData, initialState, Except.map]

/-- C2, counterexample.  A malformed response (missing `candidates` list) at
index 0 is not captured as a Failure outcome: iterating
`response.candidates[0].content.parts` raises `TypeError`, the exception
propagates out of the batch, and the sibling success at index 1 is never
processed (no file is written for it). -/
theorem C2_counterexample :
    generate_design_variations "output"
        [TaskResult.ok 0 respMalformed, TaskResult.ok 1 (respWithUsage 1000 100)]
      = .error (.typeError "NoneType object is not subscriptable")
    ∧ batchWrites "output"
        [TaskResult.ok 0 respMalformed, TaskResult.ok 1 (respWithUsage 1000 100)] = [] := by
  exact ⟨rfl, rfl⟩

/-- C3, counterexample.  A batch in which every request fails can still
raise: when the (only) failure is a malformed response, the batch raises
`TypeError` instead of returning an empty summary. -/
theorem C3_counterexample :
    ([TaskResult.ok 0 respMalformed].all (fun r => !imageSuccess r)) = true
    ∧ generate_design_variations "output" [TaskResult.ok 0 respMalformed]
        = .error (.typeError "NoneType object is not subscriptable") := by
  exact ⟨rfl, rfl⟩

/-- C8: with the API key absent from both the constructor argument and the
process environment, `InteriorDesigner.__init__` raises `ValueError`
immediately; the batch never runs and no file is written, whatever the
batch arguments would have been. -/
theorem C8_missing_key_fatal (output_dir : String) (results : List TaskResult) :
    run_program none none output_dir results
      = (.error (.valueError "GEMINI_API_KEY environment variable is required"), [])
    ∧ InteriorDesigner_init none none
      = .error (.valueError "GEMINI_API_KEY environment variable is required") := by
  exact ⟨rfl, rfl⟩

/-- C9, counterexample.  The claim says every driver script fails with an
attribute error.  `jaidha_room.py` fails earlier with a different error:
its `RoomSpecs(width=…, length=…, height=…, room_type=…)` call omits the
required `window_count` and `door_count` fields, so the dataclass
constructor raises `TypeError` before `generate_variations` is ever looked
up. -/
theorem C9_counterexample :
    jaidha_room_main (some "key")
      = .error (.typeError "RoomSpecs.__init__ missing required arguments")
    ∧ failsWithAttributeError (jaidha_room_main (some "key")) = false := by
  exact ⟨rfl, rfl⟩

/-- C9, amended: `InteriorDesigner` defines no `generate_variations` method,
and all five driver scripts fail before any request is dispatched or file
is written; `jaidha_custom`, `kitchen`, `living_room` and
`living_room_iteration` fail with `AttributeError` at the
`generate_variations` lookup, while `jaidha_room` fails earlier with a
`TypeError` from constructing `RoomSpecs` without `window_count` and
`door_count`. -/
theorem C9_amended_drivers_fail_preflight (k : String) (h : k.isEmpty = false) :
    kitchen_main (some k) = .error (.attributeError "generate_variations")
    ∧ living_room_main (some k) = .error (.attributeError "generate_variations")
    ∧ jaidha_custom_main (some k) = .error (.attributeError "generate_variations")
    ∧ living_room_iteration_main (some k) = .error (.attributeError "generate_variations")
    ∧ jaidha_room_main (some k)
        = .error (.typeError "RoomSpecs.__init__ missing required arguments")
    ∧ InteriorDesigner_methods.contains "generate_variations" = false := by
  have hinit : InteriorDesigner_init none (some k)
      = .ok { api_key := k, model := "gemini-2.5-flash-image-preview" } := by
    simp [InteriorDesigner_init, pyTruthy, h]
  refine ⟨?_, ?_, ?_, ?_, ?_, by decide⟩ <;>
    simp [kitchen_main, living_room_main, jaidha_custom_main, living_room_iteration_main,
      jaidha_room_main, hinit, RoomSpecs_init, getattrMethod, InteriorDesigner_methods,
      Bind.bind, Except.bind]
  rw [if_neg (by decide)]

/-- C3, amended: if every request fails in a way the loop records — a
captured exception or a well-formed response with no image part — the batch
returns normally with no images, no files, zero token totals and zero
estimated cost. -/
theorem C3_amended_all_recorded_failures (output_dir : String) (results : List TaskResult)
    (h : ∀ r ∈ results, recordedFailure r = true) :
    generate_design_variations output_dir results
      = .ok { generated_images := [], saved := [], successIndices := []
              total_input_tokens := 0, total_output_tokens := 0
              estimated_cost := 0, cost_per_variation := none } := by
  unfold generate_design_variations
  rw [processResults_all_failures output_dir results initialState h]
  norm_num [initialState]

/-- Witness for the amended C3: one thrown error and one imageless
response. -/
theorem C3_amended_witness :
    (∀ r ∈ [TaskResult.exn "boom", TaskResult.ok 1 respNoImage], recordedFailure r = true)
    ∧ generate_design_variations "output" [TaskResult.exn "boom", TaskResult.ok 1 respNoImage]
        = .ok { generated_images := [], saved := [], successIndices := []
                total_input_tokens := 0, total_output_tokens := 0
                estimated_cost := 0, cost_per_variation := none } :=
  ⟨by decide, C3_amended_all_recorded_failures "output" _ (by decide)⟩

/-- C6: a Failure outcome — a captured exception or a well-formed response
from which no image was extracted — contributes nothing: inserting one
anywhere in the gathered results changes neither the returned summary
(images, totals, cost) nor the set of files written. -/
theorem C6_failure_contributes_nothing (output_dir : String) (pre post : List TaskResult)
    (f : TaskResult) (h : recordedFailure f = true) :
    generate_design_variations output_dir (pre ++ f :: post)
      = generate_design_variations output_dir (pre ++ post)
    ∧ batchWrites output_dir (pre ++ f :: post) = batchWrites output_dir (pre ++ post) := by
  have key : ∀ st, processResults output_dir st (pre ++ f :: post)
      = processResults output_dir st (pre ++ post) := by
    induction pre with
    | nil =>
      intro st
      simp only [List.nil_append, processResults]
      rw [processResult_of_recordedFailure output_dir st f h]
    | cons a pre ih =>
      intro st
      simp only [List.cons_append, processResults]
      cases hp : processResult output_dir st a with
      | error e => rfl
      | ok st' => exact ih st'
  exact ⟨by simp only [generate_design_variations, key initialState],
         by simp only [batchWrites, key initialState]⟩

/-- Witness for C6: a success at index 0, with a thrown error inserted
after it. -/
theorem C6_witness :
    recordedFailure (TaskResult.exn "x") = true
    ∧ (generate_design_variations "output"
          ([TaskResult.ok 0 (respWithUsage 5 7)] ++ TaskResult.exn "x" :: [])
        = generate_design_variations "output" ([TaskResult.ok 0 (respWithUsage 5 7)] ++ [])
      ∧ batchWrites "output" ([TaskResult.ok 0 (respWithUsage 5 7)] ++ TaskResult.exn "x" :: [])
        = batchWrites "output" ([TaskResult.ok 0 (respWithUsage 5 7)] ++ [])) :=
  ⟨by decide, C6_failure_contributes_nothing "output" [TaskResult.ok 0 (respWithUsage 5 7)]
      [] (TaskResult.exn "x") (by decide)⟩

/-- C10: the token totals are strictly positive only when at least one image
was appended, so the per-variation division of line 338 — executed only
when the totals are positive — never divides by zero: the batch can never
raise `ZeroDivisionError`. -/
theorem C10_no_div_by_zero (output_dir : String) (results : List TaskResult) :
    generate_design_variations output_dir results ≠ Except.error PyError.zeroDivisionError
    ∧ (0 < (processResults output_dir initialState results).1.total_input_tokens +
            (processResults output_dir initialState results).1.total_output_tokens →
        (processResults output_dir initialState results).1.generated_images ≠ []) := by
  have hinv := processResults_preserves_inv output_dir results initialState
    (by intro hcontra; simp [initialState] at hcontra)
  refine ⟨?_, hinv⟩
  intro hcontra
  unfold generate_design_variations at hcontra
  cases hps : processResults output_dir initialState results with
  | mk st err =>
    rw [hps] at hcontra hinv
    cases err with
    | some e =>
      injection hcontra with he
      have h2 := processResults_no_zeroDiv output_dir results initialState
      rw [hps] at h2
      exact h2 (by rw [he])
    | none =>
      by_cases hc : 0 < st.total_input_tokens + st.total_output_tokens ∧
          st.generated_images.length = 0
      · exact absurd (List.length_eq_zero.mp hc.2) (hinv hc.1)
      · simp [hc] at hcontra
        rcases hcontra with ⟨h1, h2⟩
        exact hc ⟨by rcases h1 with h | h <;> omega, by simp [h2]⟩

/-- Witness for C10 (the second conjunct is an implication): a single
successful request. -/
theorem C10_witness :
    generate_design_variations "output" [TaskResult.ok 0 (respWithUsage 3 4)]
        ≠ Except.error PyError.zeroDivisionError
    ∧ (0 < (processResults "output" initialState
              [TaskResult.ok 0 (respWithUsage 3 4)]).1.total_input_tokens +
            (processResults "output" initialState
              [TaskResult.ok 0 (respWithUsage 3 4)]).1.total_output_tokens →
        (processResults "output" initialState
            [TaskResult.ok 0 (respWithUsage 3 4)]).1.generated_images ≠ []) :=
  C10_no_div_by_zero "output" [TaskResult.ok 0 (respWithUsage 3 4)]

/-- A well-formed result that contributes no image is a recorded failure. -/
theorem recordedFailure_of_not_image (r : TaskResult) (hw : wellFormed r = true)
    (hs : imageSuccess r = false) : recordedFailure r = true := by
  cases r with
  | exn m => rfl
  | ok i response =>
    simp only [wellFormed] at hw
    simp only [imageSuccess] at hs
    simp only [recordedFailure]
    cases hex : extractImage response with
    | error e => rw [hex] at hw; simp at hw
    | ok o =>
      cases o with
      | none => rfl
      | some img => rw [hex] at hs; simp at hs

/-- A well-formed result never makes the loop iteration raise. -/
theorem processResult_ok_of_wellFormed (output_dir : String) (st : BatchState)
    (r : TaskResult) (hw : wellFormed r = true) :
    ∃ st', processResult output_dir st r = .ok st' := by
  cases hp : processResult output_dir st r with
  | ok st' => exact ⟨st', rfl⟩
  | error e =>
    obtain ⟨i, response, hr, hex⟩ := processResult_error_extract output_dir st r e hp
    subst hr
    simp only [wellFormed] at hw
    rw [hex] at hw
    simp at hw

/-- A loop over well-formed results never raises. -/
theorem processResults_wellFormed_none (output_dir : String) (l : List TaskResult) :
    ∀ st, (∀ r ∈ l, wellFormed r = true) → (processResults output_dir st l).2 = none := by
  induction l with
  | nil => intro st _; rfl
  | cons r rest ih =>
    intro st h
    obtain ⟨st', hp⟩ := processResult_ok_of_wellFormed output_dir st r (h r (by simp))
    simp only [processResults]
    rw [hp]
    exact ih st' (fun x hx => h x (by simp [hx]))

/-- Over well-formed results, dropping the recorded failures changes
nothing: the loop behaves as if only the image successes were present. -/
theorem processResults_filter_imageSuccess (output_dir : String) (l : List TaskResult) :
    ∀ st, (∀ r ∈ l, wellFormed r = true) →
      processResults output_dir st l
        = processResults output_dir st (l.filter imageSuccess) := by
  induction l with
  | nil => intro st _; rfl
  | cons r rest ih =>
    intro st h
    by_cases hs : imageSuccess r = true
    · rw [List.filter_cons_of_pos hs]
      simp only [processResults]
      cases hp : processResult output_dir st r with
      | error e => rfl
      | ok st' => exact ih st' (fun x hx => h x (by simp [hx]))
    · have hr := recordedFailure_of_not_image r (h r (by simp))
        (by simpa using hs)
      rw [List.filter_cons_of_neg (by simpa using hs)]
      simp only [processResults]
      rw [processResult_of_recordedFailure output_dir st r hr]
      exact ih st (fun x hx => h x (by simp [hx]))

/-- C2, amended: a thrown error, or a well-formed response from which no
image part is extracted, is recorded as a per-index failure and does not
abort the batch — the batch returns normally and behaves exactly as if only
the image-bearing successes had been gathered.  (A malformed response, by
contrast, raises out of the batch; see the counterexample.) -/
theorem C2_amended_failures_recorded (output_dir : String) (results : List TaskResult)
    (h : ∀ r ∈ results, wellFormed r = true) :
    exceptOk (generate_design_variations output_dir results) = true
    ∧ generate_design_variations output_dir results
        = generate_design_variations output_dir (results.filter imageSuccess) := by
  refine ⟨generate_ok_of_no_raise output_dir results
      (processResults_wellFormed_none output_dir results initialState h), ?_⟩
  simp only [generate_design_variations,
    processResults_filter_imageSuccess output_dir results initialState h]

/-- Witness for the amended C2: a thrown error, an imageless response and an
image-bearing success in one batch. -/
theorem C2_amended_witness :
    (∀ r ∈ [TaskResult.exn "boom", TaskResult.ok 0 respNoImage,
        TaskResult.ok 1 (respWithUsage 10 20)], wellFormed r = true)
    ∧ (exceptOk (generate_design_variations "output"
          [TaskResult.exn "boom", TaskResult.ok 0 respNoImage,
            TaskResult.ok 1 (respWithUsage 10 20)]) = true
      ∧ generate_design_variations "output"
            [TaskResult.exn "boom", TaskResult.ok 0 respNoImage,
              TaskResult.ok 1 (respWithUsage 10 20)]
          = generate_design_variations "output"
              ([TaskResult.exn "boom", TaskResult.ok 0 respNoImage,
                TaskResult.ok 1 (respWithUsage 10 20)].filter imageSuccess)) :=
  ⟨by decide, C2_amended_failures_recorded "output" _ (by decide)⟩

/-- Loading a list of readable images keeps them all, in order, and warns
about nothing. -/
theorem loadImages_map_ok (imgs : List PILImage) :
    loadImages (imgs.map Except.ok) = (imgs, []) := by
  induction imgs with
  | nil => rfl
  | cons a rest ih => simp [loadImages, ih]

/-- C5, counterexample.  Five readable current-room reference images with
the fixed cap of 3: the first 3 in input order are attached to every
request, and the batch does not fail — but the warning side-channel stays
empty, where the claim requires a truncation warning to be surfaced. -/
theorem C5_counterexample :
    (batch_front [Except.ok ⟨[1]⟩, Except.ok ⟨[2]⟩, Except.ok ⟨[3]⟩,
        Except.ok ⟨[4]⟩, Except.ok ⟨[5]⟩] [] (fun _ => "p") 2).2 = []
    ∧ (batch_front [Except.ok ⟨[1]⟩, Except.ok ⟨[2]⟩, Except.ok ⟨[3]⟩,
        Except.ok ⟨[4]⟩, Except.ok ⟨[5]⟩] [] (fun _ => "p") 2).1
      = [[ContentItem.text "p", ContentItem.image ⟨[1]⟩, ContentItem.image ⟨[2]⟩,
            ContentItem.image ⟨[3]⟩],
         [ContentItem.text "p", ContentItem.image ⟨[1]⟩, ContentItem.image ⟨[2]⟩,
            ContentItem.image ⟨[3]⟩]] :=
  ⟨rfl, rfl⟩

/-- C5, amended: when more reference images are supplied than the fixed
maximum, the batch silently truncates to the first `max_references` in
input order and attaches them to every request; no warning is surfaced for
the truncation (the warning side-channel only reports unreadable images),
and the batch is not failed. -/
theorem C5_amended_silent_truncation (imgs inspiration : List PILImage)
    (prompts : Nat → String) (n : Nat) :
    loadImages (imgs.map Except.ok) = (imgs, [])
    ∧ (batch_front (imgs.map Except.ok) (inspiration.map Except.ok) prompts n).2 = []
    ∧ (batch_front (imgs.map Except.ok) (inspiration.map Except.ok) prompts n).1
        = (List.range n).map (fun i =>
            ContentItem.text (prompts i)
              :: ((imgs.take 3).map ContentItem.image
                  ++ (inspiration.take 2).map ContentItem.image))
    ∧ (imgs.take 3).length = min 3 imgs.length := by
  refine ⟨loadImages_map_ok imgs, ?_, ?_, by simp⟩
  · simp [batch_front, loadImages_map_ok]
  · simp [batch_front, loadImages_map_ok, request_contents]

/-- `%02d` of 1..99 (and 0) is two characters long and decodes back to its
argument. -/
theorem pad2_encodes :
    ∀ j : Fin 100, (pad2 j.val).length = 2 ∧ decodeDigits (pad2 j.val).data = j.val := by
  decide

/-- C7: the file persisted for the success at variation index `i` is
`{output_dir}/design_variation_{i+1:02d}.png`: its name embeds the 1-based
variation number `i + 1`, zero-padded to 2 digits. -/
theorem C7_filename_encoding (output_dir : String) (i : Nat) (h : i + 1 < 100) :
    outputPath output_dir i
      = output_dir ++ "/design_variation_" ++ pad2 (i + 1) ++ ".png"
    ∧ (pad2 (i + 1)).length = 2
    ∧ decodeDigits (pad2 (i + 1)).data = i + 1
    ∧ batchWrites output_dir [TaskResult.ok i (respWithUsage 5 7)]
        = [outputPath output_dir i] := by
  obtain ⟨h1, h2⟩ := pad2_encodes ⟨i + 1, h⟩
  refine ⟨rfl, h1, h2, ?_⟩
  simp [batchWrites, processResults, processResult, extractImage, respWithUsage,
    findInlineData, initialState]

/-- Witness for C7 at indices 0 and 9: the file names carry `01` and `10`
respectively. -/
theorem C7_witness :
    ((0 + 1 < 100)
      ∧ (outputPath "output" 0 = "output" ++ "/design_variation_" ++ pad2 (0 + 1) ++ ".png"
        ∧ (pad2 (0 + 1)).length = 2
        ∧ decodeDigits (pad2 (0 + 1)).data = 0 + 1
        ∧ batchWrites "output" [TaskResult.ok 0 (respWithUsage 5 7)]
            = [outputPath "output" 0]))
    ∧ ((9 + 1 < 100)
      ∧ (outputPath "output" 9 = "output" ++ "/design_variation_" ++ pad2 (9 + 1) ++ ".png"
        ∧ (pad2 (9 + 1)).length = 2
        ∧ decodeDigits (pad2 (9 + 1)).data = 9 + 1
        ∧ batchWrites "output" [TaskResult.ok 9 (respWithUsage 5 7)]
            = [outputPath "output" 9]))
    ∧ pad2 1 = "01" ∧ pad2 10 = "10" :=
  ⟨⟨by decide, C7_filename_encoding "output" 0 (by decide)⟩,
   ⟨by decide, C7_filename_encoding "output" 9 (by decide)⟩,
   by decide, by decide⟩

/-- Looking an index up among the completed tasks finds that task's own
result, wherever the completion order put it. -/
theorem find_completedInOrder (task : Nat → TaskResult) (i : Nat) :
    ∀ σ : List Nat, i ∈ σ →
      (completedInOrder σ task).find? (fun p => p.1 == i) = some (i, task i) := by
  intro σ
  induction σ with
  | nil => intro h; simp at h
  | cons j rest ih =>
    intro h
    simp only [completedInOrder, List.map_cons]
    by_cases hji : j = i
    · subst hji
      rw [List.find?_cons_of_pos _ (by simp)]
    · rw [List.find?_cons_of_neg _ (by simp [hji])]
      have hmem : i ∈ rest := by
        rcases List.mem_cons.mp h with h1 | h2
        · exact absurd h1.symm hji
        · exact h2
      exact ih hmem

theorem filterMap_id_map_some {α : Type} (l : List α) :
    (l.map some).filterMap id = l := by
  induction l with
  | nil => rfl
  | cons a rest ih => simp [ih]

/-- Reassembling the slots after any permutation of the completion order
returns the task results in submission order: `gather`'s output does not
depend on completion order. -/
theorem slotResults_of_perm (n : Nat) (σ : List Nat) (task : Nat → TaskResult)
    (h : σ.Perm (List.range n)) :
    (slotResults n (completedInOrder σ task)).filterMap id = (List.range n).map task := by
  have hcong : (List.range n).map
        (fun i => ((completedInOrder σ task).find? (fun p => p.1 == i)).map Prod.snd)
      = (List.range n).map (fun i => some (task i)) := by
    apply List.map_congr_left
    intro i hi
    rw [find_completedInOrder task i σ (h.mem_iff.mpr hi)]
    rfl
  unfold slotResults
  rw [hcong]
  have hmm : (List.range n).map (fun i => some (task i))
      = ((List.range n).map task).map some := by
    rw [List.map_map]
    rfl
  rw [hmm, filterMap_id_map_some]

/-- One iteration appends exactly the contributed index (if any) to
`successIndices`. -/
theorem processResult_successIndices (output_dir : String) (st st' : BatchState)
    (r : TaskResult) (hp : processResult output_dir st r = .ok st') :
    st'.successIndices = st.successIndices ++ (indexIfSuccess r).toList := by
  cases r with
  | exn m =>
    simp only [processResult] at hp
    injection hp with h'
    rw [← h']
    simp [indexIfSuccess]
  | ok i response =>
    simp only [processResult] at hp
    simp only [indexIfSuccess]
    cases hex : extractImage response with
    | error e => rw [hex] at hp; simp at hp
    | ok o =>
      cases o with
      | none => rw [hex] at hp; injection hp with h'; rw [← h']; simp
      | some img => rw [hex] at hp; injection hp with h'; rw [← h']; simp

/-- Over a whole loop that does not raise, `successIndices` collects the
contributed indices in processing order. -/
theorem processResults_successIndices (output_dir : String) (l : List TaskResult) :
    ∀ st, (processResults output_dir st l).2 = none →
      (processResults output_dir st l).1.successIndices
        = st.successIndices ++ l.filterMap indexIfSuccess := by
  induction l with
  | nil => intro st _; simp [processResults]
  | cons r rest ih =>
    intro st hnone
    simp only [processResults] at hnone ⊢
    cases hp : processResult output_dir st r with
    | error e => rw [hp] at hnone; simp at hnone
    | ok st' =>
      rw [hp] at hnone
      rw [ih st' hnone, processResult_successIndices output_dir st st' r hp,
        List.filterMap_cons]
      cases indexIfSuccess r <;> simp

/-- The contributed indices of tasks submitted for the index list `l` form
a sublist of `l`: a task only ever contributes its own submission index. -/
theorem filterMap_indexIfSuccess_sublist (remote : Nat → Except String Response) :
    ∀ l : List Nat, ((l.map (taskOf remote)).filterMap indexIfSuccess).Sublist l := by
  intro l
  induction l with
  | nil => simp
  | cons a rest ih =>
    simp only [List.map_cons, List.filterMap_cons]
    have ha : indexIfSuccess (taskOf remote a) = none
        ∨ indexIfSuccess (taskOf remote a) = some a := by
      unfold taskOf
      cases remote a with
      | error e => simp [indexIfSuccess]
      | ok resp =>
        simp only [indexIfSuccess]
        cases extractImage resp with
        | error e => simp
        | ok o => cases o <;> simp
    rcases ha with ha | ha <;> rw [ha]
    · exact ih.cons a
    · exact ih.cons₂ a

/-- The success indices a returned summary reports are exactly the indices
the loop contributed, in processing order. -/
theorem generate_successIndices (output_dir : String) (results : List TaskResult)
    (s : BatchSummary) (hg : generate_design_variations output_dir results = .ok s) :
    s.successIndices = results.filterMap indexIfSuccess := by
  unfold generate_design_variations at hg
  cases hps : processResults output_dir initialState results with
  | mk st err =>
    rw [hps] at hg
    cases err with
    | some e => exact absurd hg (by simp)
    | none =>
      have h2 : (processResults output_dir initialState results).2 = none := by rw [hps]
      have h1 := processResults_successIndices output_dir results initialState h2
      rw [hps] at h1
      simp only [initialState, List.nil_append] at h1
      by_cases hc : 0 < st.total_input_tokens + st.total_output_tokens ∧
          st.generated_images.length = 0
      · simp [hc] at hg
      · simp only [gt_iff_lt, if_neg hc] at hg
        injection hg with h'
        rw [← h']
        exact h1

/-- C4: the batch outcome is the same under every completion order of the
underlying concurrent requests, and the success indices of the returned
summary are in strictly ascending submission order. -/
theorem C4_order_independent_ascending (output_dir : String) (n : Nat) (σ : List Nat)
    (remote : Nat → Except String Response) (h : σ.Perm (List.range n)) :
    run_batch_sched output_dir n σ remote
      = run_batch_sched output_dir n (List.range n) remote
    ∧ List.Sorted (· < ·)
        (successIndicesOf (run_batch_sched output_dir n σ remote)) := by
  have e1 := slotResults_of_perm n σ (taskOf remote) h
  have e2 := slotResults_of_perm n (List.range n) (taskOf remote) (List.Perm.refl _)
  constructor
  · unfold run_batch_sched
    rw [e1, e2]
  · unfold run_batch_sched
    rw [e1]
    cases hg : generate_design_variations output_dir
        ((List.range n).map (taskOf remote)) with
    | error e => simp [successIndicesOf]
    | ok s =>
      simp only [successIndicesOf]
      rw [generate_successIndices output_dir _ s hg]
      exact List.Pairwise.sublist
        (filterMap_indexIfSuccess_sublist remote (List.range n))
        (List.pairwise_lt_range n)

/-- Witness for C4: two requests completing in reversed order. -/
theorem C4_witness :
    ([1, 0].Perm (List.range 2))
    ∧ (run_batch_sched "output" 2 [1, 0] (fun _ => Except.ok (respWithUsage 1 1))
          = run_batch_sched "output" 2 (List.range 2)
              (fun _ => Except.ok (respWithUsage 1 1))
      ∧ List.Sorted (· < ·) (successIndicesOf (run_batch_sched "output" 2 [1, 0]
          (fun _ => Except.ok (respWithUsage 1 1))))) :=
  ⟨by decide,
   C4_order_independent_ascending "output" 2 [1, 0]
     (fun _ => Except.ok (respWithUsage 1 1)) (by decide)⟩

/-- Witness for the amended C9 at the concrete key "key". -/
theorem C9_amended_witness :
    ("key".isEmpty = false)
    ∧ (kitchen_main (some "key") = .error (.attributeError "generate_variations")
       ∧ living_room_main (some "key") = .error (.attributeError "generate_variations")
       ∧ jaidha_custom_main (some "key") = .error (.attributeError "generate_variations")
       ∧ living_room_iteration_main (some "key")
           = .error (.attributeError "generate_variations")
       ∧ jaidha_room_main (some "key")
           = .error (.typeError "RoomSpecs.__init__ missing required arguments")
       ∧ InteriorDesigner_methods.contains "generate_variations" = false) :=
  ⟨by decide, C9_amended_drivers_fail_preflight "key" (by decide)⟩

end Decor
